import Mathlib

/-!
Verification of the Wayback SPO analyzer core (`wayback_spo_analyzer.py`,
shipped inside `scripts/render_configured.js`): a shallow embedding of the
signature comparison, the bisection change-point localizer, the CDX snapshot
parsing, the truncation heuristics, the resilient fetch layer, the event
emission of `analyze_domain`, the exclusivity detector, and the `main`
orchestration loop, together with theorems settling the frozen claims.

Conventions of the embedding:
* Python dict signatures become the `Sig` structure of total functions
  (a missing dict key reads as the Python default: `False` resp. `0`).
* `None` signatures become `Option.none`; fallible calls return `Option`.
* Remote I/O is abstracted as explicit input functions: the per-index
  signature cache becomes a function `Nat → Option Sig`, the network becomes
  a function from attempt number to outcome, and sleeping is recorded in a
  trace instead of being performed.
* Floating-point backoff arithmetic is idealized over `ℚ`; the 20% relative
  truncation threshold is the exact rational 1/5.
-/

/-- The keys of `SSP_DEFS` in source order: the fixed provider catalog. -/
def ssp_keys : List String :=
  ["google", "magnite", "pubmatic", "index", "openx", "xandr",
   "triplelift", "sharethrough", "sovrn", "adform"]

/-- A known (non-unknown) signature, embedding the signature dict built by
`build_signature_from_ads`: for a provider key `ssp`, `ads ssp` models the
`f"{ssp}_ads"` boolean, `idsDirect ssp` the `f"{ssp}_ids_direct"` count and
`idsReseller ssp` the `f"{ssp}_ids_reseller"` count (dict lookups with
defaults `False` resp. `0` are total functions here). -/
structure Sig where
  ads : String → Bool
  idsDirect : String → Nat
  idsReseller : String → Nat

/-- Embeds `signatures_equal(sigA, sigB, consider_ids)`: `None` on either side
is never equal; otherwise every provider must agree on presence, and (when
`consider_ids`) on both ID counts. -/
def signatures_equal (sigA sigB : Option Sig) (consider_ids : Bool) : Bool :=
  match sigA, sigB with
  | none, _ => false
  | _, none => false
  | some sa, some sb =>
    ssp_keys.all fun ssp =>
      (sa.ads ssp == sb.ads ssp) &&
      (!consider_ids ||
        ((sa.idsDirect ssp == sb.idsDirect ssp) &&
         (sa.idsReseller ssp == sb.idsReseller ssp)))

/-- Embeds the recurring Python idiom `bool((sig or {}).get(f"{ssp}_ads"))`
(also `sig and sig.get(...)`): presence of a provider in a possibly-unknown
signature. -/
def opt_ads (sig : Option Sig) (ssp : String) : Bool :=
  match sig with
  | some s => s.ads ssp
  | none => false

/-- The probe offsets tried by `binary_search_change` when the midpoint
signature is unknown, in source order: `for d in (-1,1,-2,2)`. -/
def probe_deltas : List Int := [-1, 1, -2, 2]

/-- Embeds the unknown-midpoint probe of `binary_search_change`: the first
offset `d` with `lo < mid+d < hi` whose signature is known, together with that
signature; `none` models `moved == False`. -/
def probe_alt (f : Nat → Option Sig) (lo hi mid : Nat) : Option (Nat × Sig) :=
  (probe_deltas.filterMap fun d =>
    let nmid : Int := (mid : Int) + d
    if (lo : Int) < nmid ∧ nmid < (hi : Int) then
      match f nmid.toNat with
      | some s => some (nmid.toNat, s)
      | none => none
    else none).head?

/-- The `while (hi - lo) > 1 and iteration < max_iterations` loop of
`binary_search_change`, with the remaining iteration budget as fuel.  `sigR`
is carried (and updated) exactly as in the source even though the source
never reads it again after the initial equality test. -/
def bsc_go (f : Nat → Option Sig) : Nat → Option Sig → Option Sig → Nat → Nat → Nat × Nat
  | 0, _, _, lo, hi => (lo, hi)
  | fuel + 1, sigL, sigR, lo, hi =>
    if hi - lo > 1 then
      let mid := (lo + hi) / 2
      match f mid with
      | some sigM =>
        if signatures_equal sigL (some sigM) true then
          bsc_go f fuel (some sigM) sigR mid hi
        else
          bsc_go f fuel sigL (some sigM) lo mid
      | none =>
        match probe_alt f lo hi mid with
        | some nm =>
          if signatures_equal sigL (some nm.2) true then
            bsc_go f fuel (some nm.2) sigR nm.1 hi
          else
            bsc_go f fuel sigL (some nm.2) lo nm.1
        | none => (lo, hi)
    else (lo, hi)

/-- Embeds `binary_search_change(snaps, get_signature_fn, left_idx, right_idx,
max_iterations)`.  The source's `snaps` parameter is never used in the body
and is dropped; `get_signature_fn` is `f`.  Every call site in the source
uses the default `max_iterations = 30`. -/
def binary_search_change (f : Nat → Option Sig) (left_idx right_idx max_iterations : Nat) :
    Option (Nat × Nat) :=
  if left_idx ≥ right_idx then none
  else
    let sigL := f left_idx
    let sigR := f right_idx
    if signatures_equal sigL sigR true then none
    else some (bsc_go f max_iterations sigL sigR left_idx right_idx)

/-- Embeds the `Snapshot` namedtuple `(timestamp, original, statuscode,
digest, length)`; `length` is `None` when absent or unparseable. -/
structure Snapshot where
  timestamp : String
  original : String
  statuscode : String
  digest : String
  length : Option Int
deriving DecidableEq, Repr, Inhabited

/-- Accumulates the decimal value of a digit run; any non-digit character
aborts (models `int(...)` raising `ValueError`). -/
def dec_nat_go : List Char → Nat → Option Nat
  | [], acc => some acc
  | c :: cs, acc =>
    if c.isDigit then dec_nat_go cs (acc * 10 + (c.toNat - '0'.toNat))
    else none

/-- Embeds `int(s)` for the decimal field strings the CDX service produces:
an optional sign followed by at least one digit; anything else gives `none`
(the `try/except` path). -/
def parse_int (s : String) : Option Int :=
  match s.toList with
  | [] => none
  | '-' :: cs =>
    if cs = [] then none else (dec_nat_go cs 0).map fun n => -(n : Int)
  | '+' :: cs =>
    if cs = [] then none else (dec_nat_go cs 0).map fun n => (n : Int)
  | cs => (dec_nat_go cs 0).map fun n => (n : Int)

/-- Embeds `int(length) if length else None` under `try/except`: the empty
string (falsy) and unparseable strings give `None`. -/
def parse_length (s : String) : Option Int :=
  if s = "" then none else parse_int s

/-- The part of a CDX HTTP response that `cdx_query` inspects: the status code
and the `r.json()` payload (`none` models a non-JSON body, including the
non-list case the source treats identically). -/
structure CdxResp where
  status : Nat
  json : Option (List (List String))

/-- Sort key of `out.sort(key=lambda s: s.timestamp)`: timestamp order as a
boolean relation for `mergeSort` (Python `list.sort` is likewise stable). -/
def ts_le (a b : Snapshot) : Bool := decide (a.timestamp ≤ b.timestamp)

/-- Embeds the response processing of `cdx_query`: `None` or non-200 or
non-JSON or short payloads give `[]`; otherwise the header row is dropped,
rows shorter than 5 fields are skipped, each remaining row becomes a
`Snapshot`, and the list is sorted ascending by timestamp.  The HTTP request
itself (`safe_request`) is abstracted into the `resp` argument. -/
def cdx_query (resp : Option CdxResp) : List Snapshot :=
  match resp with
  | none => []
  | some r =>
    if r.status ≠ 200 then []
    else
      match r.json with
      | none => []
      | some data =>
        if data.length < 2 then []
        else
          let rows := data.drop 1
          let out := rows.filterMap fun row =>
            if row.length < 5 then none
            else some
              { timestamp := row.getD 0 ""
                original := row.getD 1 ""
                statuscode := row.getD 2 ""
                digest := row.getD 3 ""
                length := parse_length (row.getD 4 "") }
          out.mergeSort ts_le

/-- The list comprehension `[s.length for s in snaps if s.length and
s.length > 0]` of `median_length_of_snapshots`. -/
def positive_lengths (snaps : List Snapshot) : List Int :=
  snaps.filterMap fun s =>
    match s.length with
    | some v => if 0 < v then some v else none
    | none => none

/-- Embeds `median_length_of_snapshots`: `None` when no positive lengths
exist, else the middle element of the sorted positive lengths (lower-median
average, floor division, for even counts). -/
def median_length_of_snapshots (snaps : List Snapshot) : Option Int :=
  let vals := positive_lengths snaps
  if vals = [] then none
  else
    let sorted := vals.mergeSort fun a b => decide (a ≤ b)
    let n := sorted.length
    if n % 2 = 1 then some (sorted.getD (n / 2) 0)
    else some (Int.fdiv (sorted.getD (n / 2 - 1) 0 + sorted.getD (n / 2) 0) 2)

/-- `TRUNCATION_MIN_BYTES`. -/
def TRUNCATION_MIN_BYTES : Int := 64

/-- `TRUNCATION_RELATIVE_THRESHOLD` (the Python float `0.20`, idealized as
the exact rational). -/
def TRUNCATION_RELATIVE_THRESHOLD : ℚ := 1 / 5

/-- Embeds `is_length_suspicious(snapshot, snaps_context)`: `False` when the
snapshot has no length or the context median is undefined; otherwise flags
lengths below the absolute floor or below the relative fraction of the
median. -/
def is_length_suspicious (snapshot : Snapshot) (snaps_context : List Snapshot) : Bool :=
  match snapshot.length with
  | none => false
  | some len =>
    match median_length_of_snapshots snaps_context with
    | none => false
    | some med =>
      if len < TRUNCATION_MIN_BYTES then true
      else if (len : ℚ) < TRUNCATION_RELATIVE_THRESHOLD * (med : ℚ) then true
      else false

/-- Embeds the `Retry-After` header value as `safe_request` interprets it:
numeric seconds (`int(retry_after)` succeeds), an HTTP date (its distance in
seconds from `utcnow` at receipt), or an unparseable value. -/
inductive RetryAfterVal where
  | numeric (n : Int)
  | httpDate (secondsFromNow : ℚ)
  | malformed

/-- The part of an HTTP response that `safe_request` inspects. -/
structure HttpResponse where
  status : Nat
  retryAfter : Option RetryAfterVal

/-- One attempt's outcome for `safe_request`: `requests.get` raised, or it
returned a response. -/
inductive FetchOutcome where
  | netError
  | resp (r : HttpResponse)

/-- `RETRY_STATUS_CODES = {429, 500, 502, 503, 504}`. -/
def RETRY_STATUS_CODES : List Nat := [429, 500, 502, 503, 504]

/-- `MAX_RETRIES`. -/
def MAX_RETRIES : Nat := 5

/-- `BACKOFF_FACTOR` (base seconds, idealized over `ℚ`). -/
def BACKOFF_FACTOR : ℚ := 1

/-- `BACKOFF_MAX` (cap in seconds). -/
def BACKOFF_MAX : ℚ := 60

/-- Embeds `_compute_backoff(attempt)` with the `random.uniform(0, 1.0)`
jitter passed in explicitly: `min(BACKOFF_MAX, BACKOFF_FACTOR * 2**attempt +
jitter)`. -/
def compute_backoff (jitter : ℚ) (attempt : Nat) : ℚ :=
  min BACKOFF_MAX (BACKOFF_FACTOR * 2 ^ attempt + jitter)

/-- The wait chosen by `safe_request` for a retryable status: the numeric
`Retry-After` as-is, a future HTTP date's distance, and otherwise (past date,
unparseable, or absent header) the computed backoff. -/
def status_wait (jitter : ℚ) (attempt : Nat) (r : HttpResponse) : ℚ :=
  match r.retryAfter with
  | some (.numeric n) => (n : ℚ)
  | some (.httpDate d) => if d < 0 then compute_backoff jitter attempt else d
  | some .malformed => compute_backoff jitter attempt
  | none => compute_backoff jitter attempt

/-- The `while True` loop of `safe_request`.  `outcome i` is the result of the
`i`-th `requests.get` call and `jitter i` the jitter drawn on that iteration;
the returned list records each `time.sleep` duration.  `attempt` increases on
every retry and the loop stops once `attempt` would exceed `max_retries`, so
a fuel of `max_retries + 1 - attempt` always suffices; the fuel-0 branch is
unreachable from `safe_request`. -/
def safe_request_go (outcome : Nat → FetchOutcome) (jitter : Nat → ℚ) (max_retries : Nat) :
    Nat → Nat → Nat → Option HttpResponse × List ℚ
  | 0, _, _ => (none, [])
  | fuel + 1, callIdx, attempt =>
    match outcome callIdx with
    | .netError =>
      if attempt + 1 > max_retries then (none, [])
      else
        let w := compute_backoff (jitter callIdx) attempt
        let rest := safe_request_go outcome jitter max_retries fuel (callIdx + 1) (attempt + 1)
        (rest.1, w :: rest.2)
    | .resp r =>
      if r.status ∈ RETRY_STATUS_CODES then
        if attempt + 1 > max_retries then (some r, [])
        else
          let w := status_wait (jitter callIdx) attempt r
          let rest := safe_request_go outcome jitter max_retries fuel (callIdx + 1) (attempt + 1)
          (rest.1, max (1 / 10) w :: rest.2)
      else (some r, [])

/-- Embeds `safe_request` at its default retry bound: the final result and
the trace of sleeps.  A network failure after exhausted retries yields
`none`; an exhausted retryable status yields that last response; any
non-retryable status returns at once. -/
def safe_request (outcome : Nat → FetchOutcome) (jitter : Nat → ℚ) :
    Option HttpResponse × List ℚ :=
  safe_request_go outcome jitter MAX_RETRIES (MAX_RETRIES + 1) 0 0

/-- An entry of the `events` list built by `analyze_domain`.  Localizer
events carry `index_lo`/`index_hi` and the bracketing signatures; exclusivity
events instead carry `details = {"consecutive": …}`; absent dict keys are
`none`. -/
structure Event where
  domain : String
  ssp : String
  type : String
  window_from : String
  window_to : String
  index_lo : Option Nat
  index_hi : Option Nat
  sig_lo : Option Sig
  sig_hi : Option Sig
  details_consecutive : Option Nat

/-- Embeds `datetime.strptime(ts, "%Y%m%d%H%M%S").strftime("%Y-%m-%d")` for
the well-formed 14-digit timestamps the analyzer feeds it. -/
def fmt_day (ts : String) : String :=
  ts.take 4 ++ "-" ++ (ts.drop 4).take 2 ++ "-" ++ (ts.drop 6).take 2

/-- Embeds one iteration of the `for (a_idx, b_idx) in windows_to_check` loop
of `analyze_domain`: run the bisection, and for each provider whose presence
differs between the bracket ends emit one event typed by the direction of the
presence change.  `getf` is `get_sig_by_index_in_reduced(…)["signature"]`. -/
def emit_for_window (domain : String) (snaps : List Snapshot) (getf : Nat → Option Sig)
    (ab : Nat × Nat) : List Event :=
  match binary_search_change getf ab.1 ab.2 30 with
  | none => []
  | some lohi =>
    let lo := lohi.1
    let hi := lohi.2
    let sig_lo := getf lo
    let sig_hi := getf hi
    let changed_ssps := ssp_keys.filter fun ssp => opt_ads sig_lo ssp != opt_ads sig_hi ssp
    let wfrom := fmt_day (snaps.getD lo default).timestamp
    let wto := fmt_day (snaps.getD hi default).timestamp
    changed_ssps.map fun ssp =>
      let a_has := opt_ads sig_lo ssp
      let b_has := opt_ads sig_hi ssp
      { domain := domain
        ssp := ssp
        type := if !a_has && b_has then "added"
                else if a_has && !b_has then "removed"
                else "changed"
        window_from := wfrom
        window_to := wto
        index_lo := some lo
        index_hi := some hi
        sig_lo := sig_lo
        sig_hi := sig_hi
        details_consecutive := none }

/-- Embeds the `windows_to_check` construction of `analyze_domain`: adjacent
pairs of sampled indices whose signatures are unequal. -/
def windows_to_check (getf : Nat → Option Sig) (sampled_indices : List Nat) : List (Nat × Nat) :=
  (sampled_indices.zip (sampled_indices.drop 1)).filter fun ab =>
    !signatures_equal (getf ab.1) (getf ab.2) true

/-- The localizer-event portion of `analyze_domain`: all events emitted over
the detected windows, in order. -/
def analyze_events (domain : String) (snaps : List Snapshot) (getf : Nat → Option Sig)
    (sampled_indices : List Nat) : List Event :=
  (windows_to_check getf sampled_indices).flatMap (emit_for_window domain snaps getf)

/-- One entry of `presence_by_index`: `(idx, timestamp, count, sig)` (the
`fetched` component is not read by the exclusivity loop and is dropped). -/
structure PEntry where
  idx : Nat
  ts : String
  count : Nat
  sig : Option Sig
deriving Inhabited

/-- Embeds the provider-count computation of `analyze_domain`:
`count += 1` for each catalog provider present in the signature. -/
def presence_count (sig : Option Sig) : Nat :=
  (ssp_keys.filter fun ssp => opt_ads sig ssp).length

/-- Embeds the `presence_by_index` construction over the reduced snapshot
list. -/
def presence_by_index (snaps : List Snapshot) (getf : Nat → Option Sig) : List PEntry :=
  (List.range snaps.length).map fun i =>
    { idx := i
      ts := (snaps.getD i default).timestamp
      count := presence_count (getf i)
      sig := getf i }

/-- The single-provider persistence test of the exclusivity walk:
`nxt_count == 1 and nxt_sig.get(f"{ssp_rem}_ads")`. -/
def single_with (s : String) (e : PEntry) : Bool :=
  e.count == 1 && opt_ads e.sig s

/-- Embeds the inner `while j < len(presence_by_index)` walk of the
exclusivity detector.  `daysB a b` abstracts
`(strptime(b) - strptime(a)).days`; fuel `p.length - j` always suffices. -/
def excl_walk (daysB : String → String → Int) (p : List PEntry) (ssp_rem : String) :
    Nat → Nat → Nat → Nat
  | 0, _, consec => consec
  | fuel + 1, j, consec =>
    match p.get? j with
    | none => consec
    | some nxt =>
      if single_with ssp_rem nxt then
        if 7 ≤ daysB (p.getD (j - 1) default).ts nxt.ts ∨ 2 ≤ consec + 1 then
          excl_walk daysB p ssp_rem fuel (j + 1) (consec + 1)
        else consec
      else consec

/-- Embeds one index `i` of the exclusivity scan `for i in range(1, …)`: a
candidate needs `prev_count >= 8`, `cur_count == 1` and a unique surviving
provider, and emits iff the walked run reaches `consec >= 2`
(`EXCLUSIVITY_MIN_CONSECUTIVE`). -/
def excl_emit_at (daysB : String → String → Int) (domain : String) (p : List PEntry)
    (i : Nat) : Option Event :=
  match p.get? (i - 1), p.get? i with
  | some prev, some cur =>
    if 8 ≤ prev.count ∧ cur.count = 1 then
      let remaining := ssp_keys.filter fun ssp => opt_ads cur.sig ssp
      if remaining.length = 1 then
        let ssp_rem := remaining.headD ""
        let consec := excl_walk daysB p ssp_rem (p.length - (i + 1)) (i + 1) 1
        if 2 ≤ consec then
          some
            { domain := domain
              ssp := ssp_rem
              type := "potential_exclusivity"
              window_from := fmt_day prev.ts
              window_to := fmt_day cur.ts
              index_lo := none
              index_hi := none
              sig_lo := none
              sig_hi := none
              details_consecutive := some consec }
        else none
      else none
    else none
  | _, _ => none

/-- The exclusivity events appended by `analyze_domain`, in scan order. -/
def exclusivity_events (daysB : String → String → Int) (domain : String)
    (p : List PEntry) : List Event :=
  ((List.range p.length).drop 1).filterMap (excl_emit_at daysB domain p)

/-- Spec-side length of the single-provider run starting at the transition
index `i` (the transition observation itself plus the observations the walk
may visit): used to state the claimed minimum-persistence rule. -/
def run_len (p : List PEntry) (s : String) (i : Nat) : Nat :=
  1 + ((p.drop (i + 1)).takeWhile (single_with s)).length

/-- Observable actions of the `main` orchestration loop: analyzing one domain
and writing the progress-log file. -/
inductive RunAction where
  | analyze (domain : String)
  | saveLogFile (entries : List (String × String))
deriving DecidableEq, Repr

/-- Python dict update `log[dom] = …` on an insertion-ordered association
list (the progress log maps a domain to its new `last_checked` value). -/
def log_set (log : List (String × String)) (dom v : String) : List (String × String) :=
  if log.any fun p => p.1 == dom then
    log.map fun p => if p.1 == dom then (dom, v) else p
  else log ++ [(dom, v)]

/-- The per-domain loop of `main`: each domain is analyzed and the in-memory
log dict is updated; no file write happens inside the loop. -/
def main_loop (to_date : String) : List String → List (String × String) →
    List RunAction × List (String × String)
  | [], log => ([], log)
  | dom :: rest, log =>
    let log1 := log_set log dom to_date
    let rest1 := main_loop to_date rest log1
    (RunAction.analyze dom :: rest1.1, rest1.2)

/-- The action trace of `main`: the domain loop followed by the single
`save_log` call at the very end of the run (`generate_report`, which touches
no log state, is elided). -/
def main_run (to_date : String) (domains : List String) (log0 : List (String × String)) :
    List RunAction :=
  let r := main_loop to_date domains log0
  r.1 ++ [RunAction.saveLogFile r.2]

/-- Recognizes a log-file write in a `main` trace. -/
def is_save (a : RunAction) : Bool :=
  match a with
  | .saveLogFile _ => true
  | _ => false

/-- The property claimed for the progress log, at one pair of consecutively
processed domains: some log-file write occurs strictly between the analysis
of `d1` and the analysis of `d2` in the trace. -/
def saved_between (tr : List RunAction) (d1 d2 : String) : Bool :=
  let i := tr.findIdx fun a => a == RunAction.analyze d1
  let j := tr.findIdx fun a => a == RunAction.analyze d2
  ((tr.drop (i + 1)).take (j - i - 1)).any is_save

/-- A signature with no providers present. -/
def sig_none : Sig :=
  { ads := fun _ => false, idsDirect := fun _ => 0, idsReseller := fun _ => 0 }

/-- A signature with exactly the provider `google` present. -/
def sig_goog : Sig :=
  { ads := fun s => s == "google", idsDirect := fun _ => 0, idsReseller := fun _ => 0 }

/-- A signature with `google` present and one direct participant ID. -/
def sig_goog_one : Sig :=
  { ads := fun s => s == "google"
    idsDirect := fun s => if s == "google" then 1 else 0
    idsReseller := fun _ => 0 }

/-- A signature with `google` present and two direct participant IDs. -/
def sig_goog_two : Sig :=
  { ads := fun s => s == "google"
    idsDirect := fun s => if s == "google" then 2 else 0
    idsReseller := fun _ => 0 }

/-- A signature with eight providers present. -/
def sig_eight : Sig :=
  { ads := fun s =>
      ["google", "magnite", "pubmatic", "index", "openx", "xandr",
       "triplelift", "sharethrough"].contains s
    idsDirect := fun _ => 0
    idsReseller := fun _ => 0 }

/-- Observation sequence for the C1 witness: one boundary between index 1 and
index 2. -/
def obs_c1 (i : Nat) : Option Sig :=
  if i ≤ 1 then some sig_none else some sig_goog

/-- Observation sequence for the C10 witness: unknown left endpoint at 0,
known signatures everywhere else. -/
def obs_c10 (i : Nat) : Option Sig :=
  if i = 0 then none else some sig_goog

/-- Observation sequence for the C2 input: two adjacent observations whose
signatures share all presence flags but differ in the `google` direct-ID
count. -/
def obs_c2 (i : Nat) : Option Sig :=
  if i = 0 then some sig_goog_one else some sig_goog_two

/-- Observation sequence for the C3 counterexample: known endpoints bracketing
three observations whose fetches failed. -/
def obs_c3 (i : Nat) : Option Sig :=
  if i = 0 then some sig_none
  else if i = 4 then some sig_goog
  else none

/-- Observation sequence for the C3 witness: two known, differing adjacent
observations. -/
def obs_c3w (i : Nat) : Option Sig :=
  if i = 0 then some sig_none else some sig_goog

/-- Observation sequence for the C5 witness: an eight-provider observation
followed by two single-provider observations with the same survivor. -/
def obs_c5 (i : Nat) : Option Sig :=
  if i = 0 then some sig_eight else some sig_goog

/-- A snapshot list with five observations (one per month of 2020). -/
def snaps_five : List Snapshot :=
  [ { timestamp := "20200101000000", original := "http://example.com/ads.txt"
      statuscode := "200", digest := "D1", length := some 1000 }
  , { timestamp := "20200201000000", original := "http://example.com/ads.txt"
      statuscode := "200", digest := "D2", length := some 1000 }
  , { timestamp := "20200301000000", original := "http://example.com/ads.txt"
      statuscode := "200", digest := "D3", length := some 1000 }
  , { timestamp := "20200401000000", original := "http://example.com/ads.txt"
      statuscode := "200", digest := "D4", length := some 1000 }
  , { timestamp := "20200501000000", original := "http://example.com/ads.txt"
      statuscode := "200", digest := "D5", length := some 1000 } ]

/-- The first two observations of `snaps_five`. -/
def snaps_two : List Snapshot := snaps_five.take 2

/-- The first three observations of `snaps_five`. -/
def snaps_three : List Snapshot := snaps_five.take 3

/-- Presence list for the C5 witness, built by the analyzer pipeline. -/
def pentries_c5 : List PEntry := presence_by_index snaps_three obs_c5

/-- The first presence entry of the C5 witness pipeline. -/
def pe_c5_0 : PEntry :=
  { idx := 0, ts := "20200101000000", count := 8, sig := some sig_eight }

/-- The second presence entry of the C5 witness pipeline. -/
def pe_c5_1 : PEntry :=
  { idx := 1, ts := "20200201000000", count := 1, sig := some sig_goog }

/-- Trivial day-distance function for witnesses (all observations within one
day). -/
def daysB_zero : String → String → Int := fun _ _ => 0

/-- A duplicated CDX data row. -/
def cdx_row_dup : List String :=
  ["20200101000000", "http://example.com/ads.txt", "200", "DGST", "100"]

/-- A CDX response whose payload repeats the same row twice after the header. -/
def cdx_resp_dup : Option CdxResp :=
  some { status := 200, json := some [["timestamp"], cdx_row_dup, cdx_row_dup] }

/-- The snapshot parsed from `cdx_row_dup`. -/
def snap_dup : Snapshot :=
  { timestamp := "20200101000000", original := "http://example.com/ads.txt"
    statuscode := "200", digest := "DGST", length := some 100 }

/-- A successfully indexed observation whose recorded length is zero bytes. -/
def snap_zero_len : Snapshot :=
  { timestamp := "20200101000000", original := "http://example.com/ads.txt"
    statuscode := "200", digest := "DZ", length := some 0 }

/-- A 30-byte observation in a context whose median is 100. -/
def snap_small : Snapshot :=
  { timestamp := "20200201000000", original := "http://example.com/ads.txt"
    statuscode := "200", digest := "DS", length := some 30 }

/-- A 100-byte observation. -/
def snap_mid : Snapshot :=
  { timestamp := "20200301000000", original := "http://example.com/ads.txt"
    statuscode := "200", digest := "DM", length := some 100 }

/-- Outcome sequence that always fails at the network level. -/
def outcome_all_net : Nat → FetchOutcome := fun _ => FetchOutcome.netError

/-- A plain 200 response with no Retry-After header. -/
def resp_ok : HttpResponse := { status := 200, retryAfter := none }

/-- Outcome sequence that immediately returns the 200 response. -/
def outcome_ok : Nat → FetchOutcome := fun _ => FetchOutcome.resp resp_ok

/-- A retryable 503 response carrying an HTTP-date Retry-After 30 seconds in
the future. -/
def resp_503_date : HttpResponse :=
  { status := 503, retryAfter := some (RetryAfterVal.httpDate 30) }

/-- A retryable 503 response carrying an HTTP-date Retry-After 5 seconds in
the past. -/
def resp_503_past : HttpResponse :=
  { status := 503, retryAfter := some (RetryAfterVal.httpDate (-5)) }

/-- Outcome sequence: one retryable response with a future HTTP-date
Retry-After, then the 200 response. -/
def outcome_date_then_ok : Nat → FetchOutcome := fun i =>
  if i = 0 then FetchOutcome.resp resp_503_date else FetchOutcome.resp resp_ok

/-- Outcome sequence: one retryable response with a past HTTP-date
Retry-After, then the 200 response. -/
def outcome_past_then_ok : Nat → FetchOutcome := fun i =>
  if i = 0 then FetchOutcome.resp resp_503_past else FetchOutcome.resp resp_ok

/-- Zero jitter for witnesses. -/
def jitter_zero : Nat → ℚ := fun _ => 0

theorem signatures_equal_none_left (b : Option Sig) (c : Bool) :
    signatures_equal none b c = false := by
  cases b <;> rfl

theorem signatures_equal_none_right (a : Option Sig) (c : Bool) :
    signatures_equal a none c = false := by
  cases a <;> rfl

theorem signatures_equal_refl (s : Sig) (c : Bool) :
    signatures_equal (some s) (some s) c = true := by
  simp only [signatures_equal, List.all_eq_true]
  intro ssp _
  cases c <;> simp

theorem bsc_go_boundary (f : Nat → Option Sig) (a b : Sig) (k : Nat)
    (hfa : ∀ i, i ≤ k → f i = some a) (hfb : ∀ i, k < i → f i = some b)
    (hab : signatures_equal (some a) (some b) true = false) :
    ∀ fuel lo hi sigR, lo ≤ k → k < hi → hi - lo ≤ 2 ^ fuel →
      bsc_go f fuel (some a) sigR lo hi = (k, k + 1) := by
  intro fuel
  induction fuel with
  | zero =>
    intro lo hi sigR hlo hhi hw
    simp only [pow_zero] at hw
    have h1 : lo = k := by omega
    have h2 : hi = k + 1 := by omega
    rw [bsc_go, h1, h2]
  | succ fuel ih =>
    intro lo hi sigR hlo hhi hw
    by_cases hgt : hi - lo > 1
    · rcases le_or_lt ((lo + hi) / 2) k with hmk | hmk
      · rw [bsc_go, if_pos hgt]
        simp only [hfa ((lo + hi) / 2) hmk, signatures_equal_refl, if_true]
        exact ih ((lo + hi) / 2) hi sigR hmk hhi (by omega)
      · rw [bsc_go, if_pos hgt]
        simp only [hfb ((lo + hi) / 2) hmk, hab, Bool.false_eq_true, if_false]
        exact ih lo ((lo + hi) / 2) (some b) hlo hmk (by omega)
    · rw [bsc_go, if_neg hgt]
      have h1 : lo = k := by omega
      have h2 : hi = k + 1 := by omega
      rw [h1, h2]

theorem bsc_go_unknown_left (f : Nat → Option Sig) (left right0 : Nat)
    (hknown : ∀ i, left < i → i < right0 → (f i).isSome) :
    ∀ fuel hi sigR, left < hi → hi ≤ right0 → hi - left ≤ 2 ^ fuel →
      bsc_go f fuel none sigR left hi = (left, left + 1) := by
  intro fuel
  induction fuel with
  | zero =>
    intro hi sigR hl hr hw
    simp only [pow_zero] at hw
    have h1 : hi = left + 1 := by omega
    rw [bsc_go, h1]
  | succ fuel ih =>
    intro hi sigR hl hr hw
    by_cases hgt : hi - left > 1
    · have hmid1 : left < (left + hi) / 2 := by omega
      have hmid2 : (left + hi) / 2 < hi := by omega
      obtain ⟨s, hs⟩ := Option.isSome_iff_exists.mp (hknown ((left + hi) / 2) hmid1 (by omega))
      rw [bsc_go, if_pos hgt]
      simp only [hs, signatures_equal_none_left, Bool.false_eq_true, if_false]
      exact ih ((left + hi) / 2) (some s) hmid1 (by omega) (by omega)
    · rw [bsc_go, if_neg hgt]
      have h1 : hi = left + 1 := by omega
      rw [h1]

theorem bsc_go_adjacent (f : Nat → Option Sig) :
    ∀ fuel lo hi sigL sigR, lo < hi → hi - lo ≤ 2 ^ fuel →
      (∀ i, lo < i → i < hi → (f i).isSome) →
      ∃ l, bsc_go f fuel sigL sigR lo hi = (l, l + 1) := by
  intro fuel
  induction fuel with
  | zero =>
    intro lo hi sigL sigR hl hw _
    simp only [pow_zero] at hw
    have h1 : hi = lo + 1 := by omega
    rw [bsc_go, h1]
    exact ⟨lo, rfl⟩
  | succ fuel ih =>
    intro lo hi sigL sigR hl hw hknown
    by_cases hgt : hi - lo > 1
    · have hmid1 : lo < (lo + hi) / 2 := by omega
      have hmid2 : (lo + hi) / 2 < hi := by omega
      obtain ⟨s, hs⟩ := Option.isSome_iff_exists.mp (hknown ((lo + hi) / 2) hmid1 hmid2)
      rw [bsc_go, if_pos hgt]
      simp only [hs]
      by_cases hc : signatures_equal sigL (some s) true = true
      · rw [if_pos hc]
        exact ih ((lo + hi) / 2) hi (some s) sigR hmid2 (by omega)
          (fun i h1 h2 => hknown i (by omega) h2)
      · rw [if_neg hc]
        exact ih lo ((lo + hi) / 2) sigL (some s) hmid1 (by omega)
          (fun i h1 h2 => hknown i h1 (by omega))
    · rw [bsc_go, if_neg hgt]
      have h1 : hi = lo + 1 := by omega
      rw [h1]
      exact ⟨lo, rfl⟩

/-- Claim C1: for every observation sequence in which every index has a known
signature and exactly one boundary separates them (all indices up to `k`
yield one signature, all later indices a differing one),
`binary_search_change` called with `left_idx ≤ k < k + 1 ≤ right_idx` and
`right_idx - left_idx < 2^30` returns exactly the adjacent pair
`(k, k + 1)`, so the returned window width is always 1. -/
theorem C1_bisection_convergence (f : Nat → Option Sig) (a b : Sig)
    (k left_idx right_idx : Nat)
    (hfa : ∀ i, i ≤ k → f i = some a) (hfb : ∀ i, k < i → f i = some b)
    (hab : signatures_equal (some a) (some b) true = false)
    (hL : left_idx ≤ k) (hR : k + 1 ≤ right_idx)
    (hw : right_idx - left_idx < 2 ^ 30) :
    binary_search_change f left_idx right_idx 30 = some (k, k + 1) := by
  rw [binary_search_change, if_neg (by omega)]
  simp only [hfa left_idx hL, hfb right_idx (by omega), hab, Bool.false_eq_true, if_false]
  exact congrArg some
    (bsc_go_boundary f a b k hfa hfb hab 30 left_idx right_idx (some b) hL (by omega) (by omega))

/-- Witness for C1 at a concrete boundary: five-index-wide call over
`obs_c1`, whose boundary sits between indices 1 and 2. -/
theorem C1_bisection_convergence_witness :
    binary_search_change obs_c1 0 3 30 = some (1, 2) :=
  C1_bisection_convergence obs_c1 sig_none sig_goog 1 0 3
    (fun i hi => by simp only [obs_c1]; rw [if_pos hi])
    (fun i hi => by simp only [obs_c1]; rw [if_neg (by omega)])
    rfl (by omega) (by omega) (by norm_num)

/-- Claim C10: when `binary_search_change` starts from an unknown left
signature, with known signatures at every interior index and
`right_idx - left_idx < 2^30`, it never returns `none` and always returns
exactly `(left_idx, left_idx + 1)`: the unknown left signature compares
unequal to every probe, so `hi` collapses onto `left_idx + 1` regardless of
where (or whether) a real signature change occurs. -/
theorem C10_unknown_left_collapse (f : Nat → Option Sig) (left_idx right_idx : Nat)
    (hfl : f left_idx = none)
    (hknown : ∀ i, left_idx < i → i < right_idx → (f i).isSome)
    (hlr : left_idx < right_idx)
    (hw : right_idx - left_idx < 2 ^ 30) :
    binary_search_change f left_idx right_idx 30 = some (left_idx, left_idx + 1) := by
  rw [binary_search_change, if_neg (by omega)]
  simp only [hfl, signatures_equal_none_left, Bool.false_eq_true, if_false]
  exact congrArg some
    (bsc_go_unknown_left f left_idx right_idx hknown 30 right_idx (f right_idx) hlr
      le_rfl (by omega))

/-- Witness for C10: an unknown signature at index 0 followed by known
signatures makes the bisection report `(0, 1)`. -/
theorem C10_unknown_left_collapse_witness :
    binary_search_change obs_c10 0 3 30 = some (0, 1) :=
  C10_unknown_left_collapse obs_c10 0 3 rfl
    (fun i h1 h2 => by simp only [obs_c10]; rw [if_neg (by omega)]; rfl)
    (by omega) (by norm_num)

/-- Claim C6: `signatures_equal` returns false whenever either argument is
the unknown signature (`none`): unknown never equals another unknown and
never equals any known signature, in both equality modes. -/
theorem C6_unknown_never_equal (b : Option Sig) (consider_ids : Bool) :
    signatures_equal none b consider_ids = false ∧
    signatures_equal b none consider_ids = false :=
  ⟨signatures_equal_none_left b consider_ids, signatures_equal_none_right b consider_ids⟩

/-- Claim C2 (code-bug evidence): two adjacent observations whose signatures
are both present for `google` but differ in the direct-ID count form a
detected window (their signatures compare unequal, so the window is
bisected), yet `emit_for_window` emits no event at all: `changed_ssps` is
filtered on presence only, so the `"changed"` classifier arm and its summary
message are unreachable. -/
theorem C2_changed_event_never_emitted :
    sig_goog_one.ads "google" = true ∧
    sig_goog_two.ads "google" = true ∧
    sig_goog_one.idsDirect "google" = 1 ∧
    sig_goog_two.idsDirect "google" = 2 ∧
    signatures_equal (some sig_goog_one) (some sig_goog_two) true = false ∧
    windows_to_check obs_c2 [0, 1] = [(0, 1)] ∧
    binary_search_change obs_c2 0 1 30 = some (0, 1) ∧
    emit_for_window "example.com" snaps_two obs_c2 (0, 1) = [] :=
  ⟨rfl, rfl, rfl, rfl, rfl, rfl, rfl, rfl⟩

/-- Claim C3 (counterexample): with known signatures only at the window
endpoints and failed fetches in between, the probe finds no usable midpoint,
the bisection stops early, and a domain analysis emits an `added` event whose
window spans indices 0 to 4 of the full reduced sequence — not an adjacent
pair. -/
theorem C3_wide_window_event :
    (analyze_events "example.com" snaps_five obs_c3 [0, 4]).map
        (fun e => (e.type, e.index_lo, e.index_hi)) =
      [("added", some 0, some 4)] := rfl

/-- Claim C3 (amended): an emitted localizer event's window is an adjacent
index pair whenever every interior index of its detected window has a known
signature and the window is narrower than `2^30` (so the iteration bound is
not hit); with unknown interior signatures or an exhausted bound the source
reports a wider best-effort bracket instead. -/
theorem C3_adjacent_when_interior_known (domain : String) (snaps : List Snapshot)
    (getf : Nat → Option Sig) (sampled : List Nat)
    (hwin : ∀ ab ∈ windows_to_check getf sampled,
      ab.1 < ab.2 ∧ ab.2 - ab.1 ≤ 2 ^ 30 ∧ ∀ i, ab.1 < i → i < ab.2 → (getf i).isSome) :
    (analyze_events domain snaps getf sampled).all
      (fun e => e.index_hi == e.index_lo.map fun l => l + 1) = true := by
  rw [List.all_eq_true]
  intro e he
  rw [analyze_events, List.mem_flatMap] at he
  obtain ⟨ab, hab, hee⟩ := he
  obtain ⟨h1, h2, h3⟩ := hwin ab hab
  simp only [emit_for_window] at hee
  cases hres : binary_search_change getf ab.1 ab.2 30 with
  | none => rw [hres] at hee; simp at hee
  | some lohi =>
    rw [hres] at hee
    have hadj : lohi.2 = lohi.1 + 1 := by
      simp only [binary_search_change, ge_iff_le, if_neg (by omega : ¬ ab.2 ≤ ab.1)] at hres
      by_cases hse : signatures_equal (getf ab.1) (getf ab.2) true = true
      · rw [if_pos hse] at hres; cases hres
      · rw [if_neg hse] at hres
        obtain ⟨l, hl⟩ :=
          bsc_go_adjacent getf 30 ab.1 ab.2 (getf ab.1) (getf ab.2) h1 h2 h3
        have : lohi = (l, l + 1) := by
          have := Option.some.inj hres
          rw [← this, hl]
        rw [this]
    simp only [List.mem_map] at hee
    obtain ⟨ssp, _, heq⟩ := hee
    rw [← heq]
    simp [hadj]

/-- Witness for the amended C3: a two-observation window with known differing
signatures yields only adjacent event windows. -/
theorem C3_adjacent_when_interior_known_witness :
    (analyze_events "example.com" snaps_two obs_c3w [0, 1]).all
      (fun e => e.index_hi == e.index_lo.map fun l => l + 1) = true :=
  C3_adjacent_when_interior_known "example.com" snaps_two obs_c3w [0, 1]
    (fun ab hab => by
      have hw : windows_to_check obs_c3w [0, 1] = [(0, 1)] := rfl
      rw [hw] at hab
      simp only [List.mem_singleton] at hab
      subst hab
      exact ⟨by norm_num, by norm_num, fun i hi1 hi2 => absurd (by omega : (1:Nat) ≤ 0) (by norm_num)⟩)

/-- Claim C7 (counterexample): a CDX payload repeating the same row twice
yields two returned observations with identical timestamp and digest —
`cdx_query` performs no `(timestamp, digest)` deduplication (that only
happens later, inside the sampling step). -/
theorem C7_duplicate_rows_survive :
    cdx_query cdx_resp_dup = [snap_dup, snap_dup] := by
  show List.mergeSort [snap_dup, snap_dup] ts_le = [snap_dup, snap_dup]
  refine List.mergeSort_of_sorted ?_
  simp [ts_le]

/-- Transitivity of the timestamp sort key. -/
theorem ts_le_trans (a b c : Snapshot) (h1 : ts_le a b) (h2 : ts_le b c) : ts_le a c := by
  simp only [ts_le, decide_eq_true_eq] at h1 h2 ⊢
  exact le_trans h1 h2

/-- Totality of the timestamp sort key. -/
theorem ts_le_total (a b : Snapshot) : ts_le a b || ts_le b a := by
  simp only [ts_le]
  rcases le_total a.timestamp b.timestamp with h | h <;> simp [h]

/-- Claim C7 (amended): `cdx_query` returns its observation list sorted
ascending by timestamp; entries are not deduplicated, so duplicate
`(timestamp, digest)` pairs returned by the service are preserved. -/
theorem C7_sorted_ascending (resp : Option CdxResp) :
    List.Pairwise (fun a b => a.timestamp ≤ b.timestamp) (cdx_query resp) := by
  have hkey : ∀ out : List Snapshot,
      List.Pairwise (fun a b => a.timestamp ≤ b.timestamp) (out.mergeSort ts_le) := by
    intro out
    refine List.Pairwise.imp ?_ (List.sorted_mergeSort ts_le_trans ts_le_total out)
    intro a b h
    simpa [ts_le] using h
  cases resp with
  | none => simp [cdx_query]
  | some r =>
    by_cases h200 : r.status ≠ 200
    · simp [cdx_query, h200]
    · cases hj : r.json with
      | none => simp [cdx_query, h200, hj]
      | some data =>
        by_cases hlen : data.length < 2
        · simp [cdx_query, h200, hj, hlen]
        · simp only [cdx_query, h200, hj, hlen, if_false, ite_false, if_neg,
            not_false_eq_true]
          exact hkey _

theorem positive_lengths_pos (ctx : List Snapshot) (x : Int)
    (hx : x ∈ positive_lengths ctx) : 0 < x := by
  rw [positive_lengths, List.mem_filterMap] at hx
  obtain ⟨s, _, hs⟩ := hx
  split at hs
  · split at hs
    · cases hs
      omega
    · cases hs
  · cases hs

theorem mem_positive_lengths (ctx : List Snapshot) (snap : Snapshot) (L : Int)
    (hmem : snap ∈ ctx) (hL : snap.length = some L) (hpos : 0 < L) :
    L ∈ positive_lengths ctx := by
  rw [positive_lengths, List.mem_filterMap]
  refine ⟨snap, hmem, ?_⟩
  rw [hL]
  simp only [if_pos hpos]

theorem median_isSome (ctx : List Snapshot) (h : positive_lengths ctx ≠ []) :
    ∃ m, median_length_of_snapshots ctx = some m := by
  rw [median_length_of_snapshots]
  simp only [if_neg h]
  split
  · exact ⟨_, rfl⟩
  · exact ⟨_, rfl⟩

theorem median_pos (ctx : List Snapshot) (m : Int)
    (h : median_length_of_snapshots ctx = some m) : 0 < m := by
  have hmem : ∀ x ∈ List.mergeSort (positive_lengths ctx) (fun a b => decide (a ≤ b)), 0 < x := by
    intro x hx
    exact positive_lengths_pos ctx x ((List.mergeSort_perm _ _).mem_iff.mp hx)
  have hgetD : ∀ i, i < (List.mergeSort (positive_lengths ctx)
      (fun a b => decide (a ≤ b))).length →
      0 < (List.mergeSort (positive_lengths ctx) (fun a b => decide (a ≤ b))).getD i 0 := by
    intro i hi
    rw [List.getD_eq_getElem?_getD, List.getElem?_eq_getElem hi]
    exact hmem _ (List.getElem_mem hi)
  rw [median_length_of_snapshots] at h
  by_cases he : positive_lengths ctx = []
  · simp only [if_pos he] at h
    cases h
  · simp only [if_neg he] at h
    have hlen : (List.mergeSort (positive_lengths ctx) (fun a b => decide (a ≤ b))).length ≠ 0 := by
      rw [List.length_mergeSort]
      exact fun hc => he (List.eq_nil_of_length_eq_zero hc)
    split at h
    · cases h
      exact hgetD _ (by omega)
    · cases h
      rename_i hodd
      have h1 := hgetD ((List.mergeSort (positive_lengths ctx)
        (fun a b => decide (a ≤ b))).length / 2 - 1) (by omega)
      have h2 := hgetD ((List.mergeSort (positive_lengths ctx)
        (fun a b => decide (a ≤ b))).length / 2) (by omega)
      rw [Int.fdiv_eq_ediv _ (by norm_num)]
      omega

/-- Claim C8 (counterexample): a successfully indexed observation with
recorded length 0 — a number below the 64-byte floor — is not flagged,
because no observation in its context has positive length, so the median is
undefined and `is_length_suspicious` returns early. -/
theorem C8_zero_length_unflagged :
    snap_zero_len.length = some 0 ∧ (0 : Int) < TRUNCATION_MIN_BYTES ∧
    is_length_suspicious snap_zero_len [snap_zero_len] = false :=
  ⟨rfl, by norm_num [TRUNCATION_MIN_BYTES], rfl⟩

/-- Claim C8 (amended): an observation with a positive recorded length below
the 64-byte floor (positivity makes the context median defined, since the
observation sits in its own context) is always flagged, and an observation
whose length is at least the context median and at least the absolute floor
is never flagged — in particular the relative 20%-of-median rule alone never
flags a length at or above the median. -/
theorem C8_truncation_flagging_amended :
    (∀ (snap : Snapshot) (ctx : List Snapshot) (L : Int),
      snap ∈ ctx → snap.length = some L → 0 < L → L < TRUNCATION_MIN_BYTES →
      is_length_suspicious snap ctx = true) ∧
    (∀ (snap : Snapshot) (ctx : List Snapshot) (L m : Int),
      snap.length = some L → median_length_of_snapshots ctx = some m →
      m ≤ L → TRUNCATION_MIN_BYTES ≤ L →
      is_length_suspicious snap ctx = false) := by
  constructor
  · intro snap ctx L hmem hL hpos hsmall
    obtain ⟨m, hm⟩ := median_isSome ctx
      (List.ne_nil_of_mem (mem_positive_lengths ctx snap L hmem hL hpos))
    simp only [is_length_suspicious, hL, hm]
    rw [if_pos hsmall]
  · intro snap ctx L m hL hm hml hbig
    have hmpos : 0 < m := median_pos ctx m hm
    have hq1 : TRUNCATION_RELATIVE_THRESHOLD * (m : ℚ) ≤ (m : ℚ) := by
      rw [TRUNCATION_RELATIVE_THRESHOLD]
      have : (0 : ℚ) < (m : ℚ) := by exact_mod_cast hmpos
      linarith
    have hq2 : (m : ℚ) ≤ (L : ℚ) := by exact_mod_cast hml
    simp only [is_length_suspicious, hL, hm]
    rw [if_neg (not_lt.mpr hbig), if_neg (not_lt.mpr (le_trans hq1 hq2))]

/-- The median of the one-observation context used by the C8 witness. -/
theorem median_of_snap_mid : median_length_of_snapshots [snap_mid] = some 100 := by
  rw [median_length_of_snapshots]
  have h1 : positive_lengths [snap_mid] = [100] := rfl
  simp only [h1]
  rw [if_neg (by simp)]
  rw [List.mergeSort_of_sorted (List.pairwise_singleton _ _)]
  norm_num

/-- Witness for the amended C8: a 30-byte observation alongside a 100-byte
one is flagged; a 100-byte observation at its context median is not. -/
theorem C8_truncation_flagging_amended_witness :
    is_length_suspicious snap_small [snap_small, snap_mid] = true ∧
    is_length_suspicious snap_mid [snap_mid] = false :=
  ⟨C8_truncation_flagging_amended.1 snap_small [snap_small, snap_mid] 30
      (List.mem_cons_self _ _) rfl (by norm_num) (by norm_num [TRUNCATION_MIN_BYTES]),
    C8_truncation_flagging_amended.2 snap_mid [snap_mid] 100 100 rfl median_of_snap_mid
      le_rfl (by norm_num [TRUNCATION_MIN_BYTES])⟩

/-- Claim C4: `safe_request` (total here, mirroring that the source never
raises to its caller) retries only on network errors and on the retryable
statuses, sleeping the jittered capped exponential backoff or the supplied
`Retry-After` value — the numeric-seconds form as-is, and the HTTP-date form
as its distance from now when that is nonnegative, falling back to the
computed backoff for a past date; after exhausting the retry bound it
returns `none` for a network failure and the last received response for a
retryable status; any other status is returned immediately with no retry and
no sleep. -/
theorem C4_safe_request_policy (outcome : Nat → FetchOutcome) (jitter : Nat → ℚ) :
    (∀ r : HttpResponse, outcome 0 = FetchOutcome.resp r → r.status ∉ RETRY_STATUS_CODES →
      safe_request outcome jitter = (some r, [])) ∧
    ((∀ i, i ≤ MAX_RETRIES → outcome i = FetchOutcome.netError) →
      (safe_request outcome jitter).1 = none) ∧
    (∀ rs : Nat → HttpResponse,
      (∀ i, i ≤ MAX_RETRIES → outcome i = FetchOutcome.resp (rs i)) →
      (∀ i, i ≤ MAX_RETRIES → (rs i).status ∈ RETRY_STATUS_CODES) →
      (safe_request outcome jitter).1 = some (rs MAX_RETRIES)) ∧
    (∀ (r0 r1 : HttpResponse) (n : Int),
      outcome 0 = FetchOutcome.resp r0 → r0.status ∈ RETRY_STATUS_CODES →
      r0.retryAfter = some (RetryAfterVal.numeric n) →
      outcome 1 = FetchOutcome.resp r1 → r1.status ∉ RETRY_STATUS_CODES →
      safe_request outcome jitter = (some r1, [max (1 / 10) (n : ℚ)])) ∧
    (∀ r1 : HttpResponse,
      outcome 0 = FetchOutcome.netError →
      outcome 1 = FetchOutcome.resp r1 → r1.status ∉ RETRY_STATUS_CODES →
      safe_request outcome jitter = (some r1, [compute_backoff (jitter 0) 0])) ∧
    (∀ (r0 r1 : HttpResponse) (d : ℚ),
      outcome 0 = FetchOutcome.resp r0 → r0.status ∈ RETRY_STATUS_CODES →
      r0.retryAfter = some (RetryAfterVal.httpDate d) → 0 ≤ d →
      outcome 1 = FetchOutcome.resp r1 → r1.status ∉ RETRY_STATUS_CODES →
      safe_request outcome jitter = (some r1, [max (1 / 10) d])) ∧
    (∀ (r0 r1 : HttpResponse) (d : ℚ),
      outcome 0 = FetchOutcome.resp r0 → r0.status ∈ RETRY_STATUS_CODES →
      r0.retryAfter = some (RetryAfterVal.httpDate d) → d < 0 →
      outcome 1 = FetchOutcome.resp r1 → r1.status ∉ RETRY_STATUS_CODES →
      safe_request outcome jitter =
        (some r1, [max (1 / 10) (compute_backoff (jitter 0) 0)])) := by
  refine ⟨?_, ?_, ?_, ?_, ?_, ?_, ?_⟩
  · intro r h0 hs
    simp [safe_request, MAX_RETRIES, safe_request_go, h0, hs]
  · intro hnet
    have h0 := hnet 0 (by decide)
    have h1 := hnet 1 (by decide)
    have h2 := hnet 2 (by decide)
    have h3 := hnet 3 (by decide)
    have h4 := hnet 4 (by decide)
    have h5 := hnet 5 (by decide)
    simp [safe_request, MAX_RETRIES, safe_request_go, h0, h1, h2, h3, h4, h5]
  · intro rs hres hmem
    have h0 := hres 0 (by decide)
    have h1 := hres 1 (by decide)
    have h2 := hres 2 (by decide)
    have h3 := hres 3 (by decide)
    have h4 := hres 4 (by decide)
    have h5 := hres 5 (by decide)
    have m0 := hmem 0 (by decide)
    have m1 := hmem 1 (by decide)
    have m2 := hmem 2 (by decide)
    have m3 := hmem 3 (by decide)
    have m4 := hmem 4 (by decide)
    have m5 := hmem 5 (by decide)
    simp [safe_request, MAX_RETRIES, safe_request_go, h0, h1, h2, h3, h4, h5,
      m0, m1, m2, m3, m4, m5]
  · intro r0 r1 n h0 hs0 hra h1 hs1
    simp [safe_request, MAX_RETRIES, safe_request_go, h0, hs0, h1, hs1,
      status_wait, hra]
  · intro r1 h0 h1 hs1
    simp [safe_request, MAX_RETRIES, safe_request_go, h0, h1, hs1]
  · intro r0 r1 d h0 hs0 hra hd h1 hs1
    simp [safe_request, MAX_RETRIES, safe_request_go, h0, hs0, h1, hs1,
      status_wait, hra, not_lt.mpr hd]
  · intro r0 r1 d h0 hs0 hra hd h1 hs1
    simp [safe_request, MAX_RETRIES, safe_request_go, h0, hs0, h1, hs1,
      status_wait, hra, hd]

/-- Witness for C4: a 200 response returns immediately with no sleep; a
permanently failing network yields `none`; a 503 carrying a future HTTP-date
Retry-After sleeps that distance (clamped at 0.1s) before the next attempt;
a past HTTP-date falls back to the computed backoff. -/
theorem C4_safe_request_policy_witness :
    safe_request outcome_ok jitter_zero = (some resp_ok, []) ∧
    (safe_request outcome_all_net jitter_zero).1 = none ∧
    safe_request outcome_date_then_ok jitter_zero = (some resp_ok, [max (1 / 10) 30]) ∧
    safe_request outcome_past_then_ok jitter_zero =
      (some resp_ok, [max (1 / 10) (compute_backoff (jitter_zero 0) 0)]) :=
  ⟨(C4_safe_request_policy outcome_ok jitter_zero).1 resp_ok rfl (by decide),
    (C4_safe_request_policy outcome_all_net jitter_zero).2.1 (fun i _ => rfl),
    (C4_safe_request_policy outcome_date_then_ok jitter_zero).2.2.2.2.2.1
      resp_503_date resp_ok 30 rfl (by decide) rfl (by norm_num) rfl (by decide),
    (C4_safe_request_policy outcome_past_then_ok jitter_zero).2.2.2.2.2.2
      resp_503_past resp_ok (-5) rfl (by decide) rfl (by norm_num) rfl (by decide)⟩

theorem excl_walk_run (daysB : String → String → Int) (p : List PEntry) (s : String) :
    ∀ fuel j c, 1 ≤ c → p.length ≤ j + fuel →
      excl_walk daysB p s fuel j c = c + ((p.drop j).takeWhile (single_with s)).length := by
  intro fuel
  induction fuel with
  | zero =>
    intro j c hc hj
    rw [excl_walk, List.drop_eq_nil_of_le (by omega)]
    simp
  | succ fuel ih =>
    intro j c hc hj
    cases hpj : p.get? j with
    | none =>
      rw [excl_walk, hpj, List.drop_eq_nil_of_le (List.get?_eq_none.mp hpj)]
      simp
    | some nxt =>
      have hjlen : j < p.length := (List.get?_eq_some.mp hpj).1
      have hget : p[j] = nxt := by
        rw [List.getElem_eq_iff]
        rwa [← List.get?_eq_getElem?]
      have hdrop : p.drop j = nxt :: p.drop (j + 1) := by
        rw [List.drop_eq_getElem_cons hjlen, hget]
      rw [excl_walk, hpj, hdrop]
      have h2 : 2 ≤ c + 1 := by omega
      by_cases hm : single_with s nxt = true
      · simp only [hm, h2, or_true, if_true, ite_true,
          ih (j + 1) (c + 1) (by omega) (by omega)]
        simp [List.takeWhile_cons, hm]
        omega
      · simp [List.takeWhile_cons, hm]

/-- Claim C5: at every transition of the reduced sequence from a provider
count of at least 8 to exactly one surviving provider, a
`potential_exclusivity` event is emitted iff the single-provider state with
that same survivor persists for the configured minimum: at least 2
consecutive observations, or at least the 7-day minimum span of the
persisted run (which, for real day arithmetic — `daysB t t = 0` — adds
nothing for a one-observation run); a run broken before the minimum emits
nothing. -/
theorem C5_exclusivity_minimum (daysB : String → String → Int)
    (hself : ∀ t, daysB t t = 0)
    (domain : String) (p : List PEntry) (i : Nat) (prev cur : PEntry) (s : String)
    (_hi1 : 1 ≤ i)
    (hprev : p.get? (i - 1) = some prev) (hcur : p.get? i = some cur)
    (hhigh : 8 ≤ prev.count) (hone : cur.count = 1)
    (hrem : ssp_keys.filter (fun ssp => opt_ads cur.sig ssp) = [s]) :
    (excl_emit_at daysB domain p i).isSome ↔
      2 ≤ run_len p s i ∨
        7 ≤ daysB cur.ts (p.getD (i + run_len p s i - 1) default).ts := by
  have hilen : i < p.length := (List.get?_eq_some.mp hcur).1
  have hwalk := excl_walk_run daysB p s (p.length - (i + 1)) (i + 1) 1 le_rfl (by omega)
  simp only [excl_emit_at, hprev, hcur]
  rw [if_pos ⟨hhigh, hone⟩, hrem]
  simp only [List.length_singleton, List.headD_cons, ite_true]
  rw [hwalk]
  simp only [run_len]
  by_cases hT : 2 ≤ 1 + ((p.drop (i + 1)).takeWhile (single_with s)).length
  · simp [hT]
  · have htl : ((p.drop (i + 1)).takeWhile (single_with s)).length = 0 := by omega
    have hgd : p[i]?.getD default = cur := by
      rw [← List.get?_eq_getElem?, hcur]
      rfl
    simp only [htl, if_neg hT]
    simp [hgd, hself]

/-- Witness for C5: an 8-provider observation followed by two single-provider
observations with the same survivor emits the event (run length 2 meets the
minimum). -/
theorem C5_exclusivity_minimum_witness :
    (excl_emit_at daysB_zero "example.com" pentries_c5 1).isSome = true :=
  (C5_exclusivity_minimum daysB_zero (fun _ => rfl) "example.com" pentries_c5 1
      pe_c5_0 pe_c5_1 "google" le_rfl rfl rfl (by decide) rfl rfl).mpr
    (Or.inl (by decide))

/-- Claim C9 (counterexample): in a two-domain run the action that follows
the first domain's analysis is the second domain's analysis, with no log-file
write in between — `save_log` runs exactly once, after the loop — so
terminating between the two domains loses the first domain's log entry. -/
theorem C9_no_save_between_domains :
    main_run "20261011" ["alpha.com", "beta.com"] [] =
      [RunAction.analyze "alpha.com", RunAction.analyze "beta.com",
        RunAction.saveLogFile [("alpha.com", "20261011"), ("beta.com", "20261011")]] ∧
    saved_between (main_run "20261011" ["alpha.com", "beta.com"] []) "alpha.com" "beta.com"
      = false :=
  ⟨rfl, rfl⟩

/-- Claim C9 (amended): the in-memory log dict gains each domain's entry as
the loop advances, but the log file is written exactly once, after every
domain's analysis, carrying the final dict; no write separates consecutive
domains. -/
theorem C9_single_save_at_end (to_date : String) (domains : List String)
    (log0 : List (String × String)) :
    main_run to_date domains log0 =
      domains.map RunAction.analyze ++
        [RunAction.saveLogFile (main_loop to_date domains log0).2] := by
  rw [main_run]
  congr 1
  induction domains generalizing log0 with
  | nil => rfl
  | cons d rest ih => simp [main_loop, ih]
